import Mathlib

/-!
Verification of the session-sharing design of sentinelhub-py.

The repository ships a tutorial notebook (`examples/session_sharing.ipynb`)
that exercises the library API: `SentinelHubSession` (token holding and
refreshing), the process-wide session cache on `SentinelHubDownloadClient`
(`get_session`, `cache_session`, `clear_cache`), the `SessionSharing`
background publisher, and two actor wrappers (Ray and Dask) defined in the
notebook itself.  The library implementation is not part of this tree, so
the session, cache and channel operations below are modelled from the
specification; the actor wrappers and the notebook version guard are
translated directly from the notebook code.

Times are modelled as natural numbers of epoch seconds.
-/

/-- Modelled from the spec: OAuth credentials (client id and client secret)
from which a credential identity is derived; the library config object is
missing from the tree. -/
structure Credentials where
  clientId : String
  clientSecret : String
deriving DecidableEq, Repr

/-- Modelled from the spec: credential identity, either derived from the
client id and secret pair or the fixed universal sentinel identity. -/
inductive CredentialIdentity where
  | creds (clientId clientSecret : String)
  | universal
deriving DecidableEq, Repr

/-- Modelled from the spec: an immutable authentication token, the flat
record of section 6 of the spec (serialized token format); the library
class holding it is missing from the tree. -/
structure Token where
  access_token : String
  token_type : String
  expires_in : Nat
  expires_at : Nat
deriving DecidableEq, Repr

/-- Modelled from the spec: the default `refresh_before_expiry` threshold in
seconds, used when a session is constructed without an explicit value. -/
def DEFAULT_REFRESH_BEFORE_EXPIRY : Nat := 120

/-- Modelled from the spec: the environment standing for the remote
authentication endpoint; it determines, per credentials and call time, the
access token string and the reported `expires_in` of a fresh token. -/
structure AuthEnv where
  accessTokenFor : Credentials → Nat → String
  expiresInFor : Credentials → Nat → Nat

/-- Modelled from the spec: `authenticate(credentials)` calls the remote
auth endpoint once and produces a new Token whose `expires_at` is the
issuance time plus `expires_in`. -/
def authenticate (env : AuthEnv) (c : Credentials) (now : Nat) : Token :=
  { access_token := env.accessTokenFor c now
    token_type := "Bearer"
    expires_in := env.expiresInFor c now
    expires_at := now + env.expiresInFor c now }

/-- Modelled from the spec: `needs_refresh(token, threshold, now)` is true
iff `now + threshold >= token.expires_at`. -/
def needs_refresh (t : Token) (threshold now : Nat) : Bool :=
  decide (t.expires_at ≤ now + threshold)

/-- Modelled from the spec: a Session holds optional credentials (none for
sessions reconstructed from a bare token), the current Token, the
`refresh_before_expiry` threshold and the `is_refreshable` flag. -/
structure Session where
  creds : Option Credentials
  token : Token
  refresh_before_expiry : Nat
  is_refreshable : Bool
deriving DecidableEq, Repr

/-- Modelled from the spec: the credential identity of a session, the
universal sentinel when it has no credentials. -/
def Session.identity (s : Session) : CredentialIdentity :=
  match s.creds with
  | some c => CredentialIdentity.creds c.clientId c.clientSecret
  | none => CredentialIdentity.universal

/-- Modelled from the spec: a Session created by direct authentication with
the default refresh threshold (constructed without an explicit
`refresh_before_expiry`). -/
def sessionFromCredentials (env : AuthEnv) (c : Credentials) (now : Nat) : Session :=
  { creds := some c
    token := authenticate env c now
    refresh_before_expiry := DEFAULT_REFRESH_BEFORE_EXPIRY
    is_refreshable := true }

/-- Modelled from the spec: `SentinelHubSession.from_token` reconstructs a
non-refreshable Session from a bare token. -/
def Session.from_token (t : Token) : Session :=
  { creds := none
    token := t
    refresh_before_expiry := 0
    is_refreshable := false }

/-- Modelled from the spec: `get_token(session)`; if the session is
refreshable and the held token needs refreshing, authenticate and install
the new Token, otherwise return the held Token unchanged (even if already
expired, for non-refreshable sessions).  The result is the returned token,
the updated session, and whether an authentication call was made. -/
def Session.get_token (env : AuthEnv) (now : Nat) (s : Session) :
    Token × Session × Bool :=
  match s.creds, s.is_refreshable && needs_refresh s.token s.refresh_before_expiry now with
  | some c, true =>
      let t := authenticate env c now
      (t, { s with token := t }, true)
  | _, _ => (s.token, s, false)

/-- Modelled from the spec: a JSON scalar value as it appears in the
serialized token record (string or number). -/
inductive JsonValue where
  | str (s : String)
  | num (n : Nat)
deriving DecidableEq, Repr

/-- Modelled from the spec: the serialized form of a token, a flat record
with fields `access_token`, `token_type`, `expires_in` and `expires_at`;
this is the wire format between processes (`json.dumps(session.token)`). -/
def serializeToken (t : Token) : List (String × JsonValue) :=
  [("access_token", JsonValue.str t.access_token),
   ("token_type", JsonValue.str t.token_type),
   ("expires_in", JsonValue.num t.expires_in),
   ("expires_at", JsonValue.num t.expires_at)]

/-- Modelled from the spec: field lookup in a decoded JSON record. -/
def lookupField (k : String) : List (String × JsonValue) → Option JsonValue
  | [] => none
  | (k1, v) :: rest => if k1 = k then some v else lookupField k rest

/-- Modelled from the spec: read a string field of a decoded JSON record. -/
def lookupStringField (k : String) (j : List (String × JsonValue)) : Option String :=
  match lookupField k j with
  | some (JsonValue.str s) => some s
  | _ => none

/-- Modelled from the spec: read a numeric field of a decoded JSON record. -/
def lookupNumberField (k : String) (j : List (String × JsonValue)) : Option Nat :=
  match lookupField k j with
  | some (JsonValue.num n) => some n
  | _ => none

/-- Modelled from the spec: deserialization of a token record
(`json.loads` followed by reading the token fields); fails when a field is
missing or has the wrong shape. -/
def deserializeToken (j : List (String × JsonValue)) : Option Token := do
  let a ← lookupStringField "access_token" j
  let ty ← lookupStringField "token_type" j
  let ei ← lookupNumberField "expires_in" j
  let ea ← lookupNumberField "expires_at" j
  pure { access_token := a, token_type := ty, expires_in := ei, expires_at := ea }

/-- Modelled from the spec: the process-wide session cache, a mapping from
credential identity to a live Session. -/
def SessionCache : Type := List (CredentialIdentity × Session)

/-- Modelled from the spec: look a credential identity up in the cache. -/
def lookupSession (ident : CredentialIdentity) : SessionCache → Option Session
  | [] => none
  | (k, s) :: rest => if k = ident then some s else lookupSession ident rest

/-- Modelled from the spec: remove any entry for the given identity. -/
def removeSession (ident : CredentialIdentity) : SessionCache → SessionCache
  | [] => []
  | (k, s) :: rest =>
      if k = ident then removeSession ident rest
      else (k, s) :: removeSession ident rest

/-- Modelled from the spec: the key under which `cache_session` installs a
session, its own credential identity or the universal identity. -/
def cacheKey (s : Session) (universal : Bool) : CredentialIdentity :=
  if universal then CredentialIdentity.universal else s.identity

/-- Modelled from the spec: `cache(session, universal)` installs the
session in the cache under its key, replacing any existing entry, and
returns whether an existing entry was replaced. -/
def cache_session (s : Session) (universal : Bool) (c : SessionCache) :
    Bool × SessionCache :=
  let key := cacheKey s universal
  ((lookupSession key c).isSome, (key, s) :: removeSession key c)

/-- Modelled from the spec: `clear()` drops all cached Sessions. -/
def SessionCache.clear (_c : SessionCache) : SessionCache := []

/-- Modelled from the spec: `get_session` looks the identity up in the
cache; on a miss with real credentials it authenticates once and caches the
new session, and on a miss for the universal identity it fails (no
credentials to authenticate with).  The last component counts the
authentication calls performed. -/
def get_session (env : AuthEnv) (now : Nat) (ident : CredentialIdentity)
    (c : SessionCache) : Option Session × SessionCache × Nat :=
  match lookupSession ident c with
  | some s => (some s, c, 0)
  | none =>
    match ident with
    | CredentialIdentity.creds cid csec =>
        let s := sessionFromCredentials env ⟨cid, csec⟩ now
        (some s, (ident, s) :: c, 1)
    | CredentialIdentity.universal => (none, c, 0)

/-- Modelled from the spec: an event at the cache for one fixed credential
identity: a caller arrives with a `get_session` request, or the in-flight
authentication completes. -/
inductive SFEvent where
  | arrive
  | complete
deriving DecidableEq, Repr

/-- Modelled from the spec: the single-flight state of the cache for one
credential identity: the cached session if any, the number of callers
waiting on an in-flight authentication (none when no authentication is in
flight), the number of authentication calls made so far, and the sessions
delivered to callers so far. -/
structure SFState where
  cached : Option Session
  inflightWaiters : Option Nat
  authCalls : Nat
  delivered : List Session
deriving DecidableEq, Repr

/-- Modelled from the spec: the initial single-flight state, before any
caller has arrived: nothing cached, no authentication in flight. -/
def sfInit : SFState :=
  { cached := none, inflightWaiters := none, authCalls := 0, delivered := [] }

/-- Modelled from the spec: one atomic step of the single-flight cache.  An
arriving caller receives the cached session if present; otherwise it joins
the in-flight authentication if one is running, and only if none is running
does it start one (counted in `authCalls`).  When the in-flight
authentication completes with session `result`, the session is cached and
delivered to every waiting caller. -/
def sfStep (result : Session) (st : SFState) : SFEvent → Option SFState
  | SFEvent.arrive =>
    match st.cached, st.inflightWaiters with
    | some s, _ => some { st with delivered := s :: st.delivered }
    | none, some w => some { st with inflightWaiters := some (w + 1) }
    | none, none =>
        some { st with inflightWaiters := some 1, authCalls := st.authCalls + 1 }
  | SFEvent.complete =>
    match st.inflightWaiters with
    | some w =>
        some { st with cached := some result, inflightWaiters := none,
                       delivered := List.replicate w result ++ st.delivered }
    | none => none

/-- Modelled from the spec: run a sequence of single-flight events from a
state, failing when an event is impossible. -/
def sfRun (result : Session) (st : SFState) : List SFEvent → Option SFState
  | [] => some st
  | e :: es =>
    match sfStep result st e with
    | some st1 => sfRun result st1 es
    | none => none

/-- Modelled from the spec: a concrete non-refreshable session used to
instantiate the single-flight guarantee. -/
def sfWitnessSession : Session := Session.from_token ⟨"t", "Bearer", 3600, 1000⟩

/-- Modelled from the spec: an auth endpoint that issues tokens whose
lifetime (60 seconds) is shorter than the default refresh threshold. -/
def shortLivedEnv : AuthEnv :=
  { accessTokenFor := fun _ _ => "tok2", expiresInFor := fun _ _ => 60 }

/-- Modelled from the spec: an auth endpoint that issues one-hour tokens,
as the real service does. -/
def longLivedEnv : AuthEnv :=
  { accessTokenFor := fun _ _ => "tok3", expiresInFor := fun _ _ => 3600 }

/-- Modelled from the spec: a refreshable session with the default
threshold whose token expired at time 500. -/
def expiredRefreshableSession : Session :=
  { creds := some ⟨"id", "secret"⟩
    token := { access_token := "tok1", token_type := "Bearer",
               expires_in := 3600, expires_at := 500 }
    refresh_before_expiry := 120
    is_refreshable := true }

/-- Translated from the notebook: `RaySessionActor.get_valid_session`
extracts the wrapped session's current token (`self.session.token`, which
refreshes it if needed) and returns a non-refreshable session built from it
via `from_token`, together with the actor's updated wrapped session. -/
def RaySessionActor.get_valid_session (env : AuthEnv) (now : Nat)
    (self : Session) : Session × Session :=
  let r := Session.get_token env now self
  (Session.from_token r.1, r.2.1)

/-- Translated from the notebook: `DaskSessionActor.get_valid_session`
extracts the wrapped session's current token (`self.session.token`, which
refreshes it if needed) and returns a non-refreshable session built from it
via `from_token`, together with the actor's updated wrapped session. -/
def DaskSessionActor.get_valid_session (env : AuthEnv) (now : Nat)
    (self : Session) : Session × Session :=
  let r := Session.get_token env now self
  (Session.from_token r.1, r.2.1)

/-- Modelled from the spec: the state of a SharingChannel, the running
flag of its background publish-and-refresh task, the wrapped session, and
the shared medium holding the last published serialized token (none before
the first publish). -/
structure ChannelState where
  running : Bool
  session : Session
  medium : Option (List (String × JsonValue))
deriving DecidableEq, Repr

/-- Modelled from the spec: an observable event of the channel's background
task: one publish iteration at a given clock value, or the stop request
raised when the wrapped scope exits. -/
inductive ChannelEvent where
  | publish (now : Nat)
  | stop
deriving DecidableEq, Repr

/-- Modelled from the spec: one step of the SharingChannel.  While running,
a publish iteration extracts the session token via `get_token` (refreshing,
and hence authenticating, only then) and writes its serialized form to the
shared medium; a stop request clears the running flag and touches neither
the session nor the medium.  A stopped channel admits no step at all, so no
authentication call can be issued after stopping. -/
inductive ChannelStep (env : AuthEnv) : ChannelState → ChannelEvent → ChannelState → Prop where
  | publish (st : ChannelState) (now : Nat) (h : st.running = true) :
      ChannelStep env st (ChannelEvent.publish now)
        { st with
          session := (Session.get_token env now st.session).2.1
          medium := some (serializeToken (Session.get_token env now st.session).1) }
  | stop (st : ChannelState) (h : st.running = true) :
      ChannelStep env st ChannelEvent.stop { st with running := false }

/-- Modelled from the spec: a run of the channel task, a chained sequence
of steps. -/
inductive ChannelRun (env : AuthEnv) : ChannelState → List ChannelEvent → ChannelState → Prop where
  | nil (st : ChannelState) : ChannelRun env st [] st
  | cons {st st1 st2 : ChannelState} {e : ChannelEvent} {es : List ChannelEvent}
      (h1 : ChannelStep env st e st1) (h2 : ChannelRun env st1 es st2) :
      ChannelRun env st (e :: es) st2

/-- Modelled from the spec: the channel state used to instantiate the stop
theorem, a freshly started channel around a concrete session. -/
def chanStartState : ChannelState :=
  { running := true
    session := Session.from_token ⟨"w", "Bearer", 10, 10⟩
    medium := none }

/-- Modelled from the spec: the channel state after one publish iteration
at time 0 and a stop request. -/
def chanStoppedState : ChannelState :=
  { running := false
    session := Session.from_token ⟨"w", "Bearer", 10, 10⟩
    medium := some (serializeToken ⟨"w", "Bearer", 10, 10⟩) }

/-- Translated from the notebook: Python string comparison `a <= b` on
code points, character by character, as used by the tutorial's guard
`assert __version__ >= "3.6.0"`. -/
def pyStrLe : List Char → List Char → Bool
  | [], _ => true
  | _ :: _, [] => false
  | x :: xs, y :: ys =>
      if x.toNat < y.toNat then true
      else if y.toNat < x.toNat then false
      else pyStrLe xs ys

/-- Translated from the notebook: the minimal version string literal of
the guard. -/
def minimalVersion : String := "3.6.0"

/-- Translated from the notebook: the tutorial's minimum-version guard
accepts `v` exactly when the Python comparison `v >= "3.6.0"` holds; it
raises AssertionError otherwise. -/
def versionGuardPasses (v : String) : Bool :=
  pyStrLe minimalVersion.data v.data

/-- Read a decimal digit group as a number (the numeric reading of one
version component). -/
def digitsToNat (ds : List Char) : Nat :=
  ds.foldl (fun acc c => acc * 10 + (c.toNat - 48)) 0

/-- Split a version string at the dots into digit groups. -/
def splitVersion : List Char → List (List Char)
  | [] => [[]]
  | c :: rest =>
      if c = '.' then [] :: splitVersion rest
      else
        match splitVersion rest with
        | [] => [[c]]
        | g :: gs => (c :: g) :: gs

/-- The numeric reading of a dotted version string as its list of
components. -/
def numericVersion (v : String) : List Nat :=
  (splitVersion v.data).map digitsToNat

/-- Spec-side comparison for the claim's wording: boolean lexicographic
`less or equal` on code-point sequences, to be related to the
mathematical lexicographic order `List.Lex`. -/
def lexLeSpec : List Nat → List Nat → Bool
  | [], _ => true
  | _ :: _, [] => false
  | x :: xs, y :: ys =>
      if x < y then true
      else if y < x then false
      else lexLeSpec xs ys

/-- Lexicographic strict comparison of numeric version component lists,
the ordering under which release 3.10.0 is newer than 3.6.0. -/
def numericLt : List Nat → List Nat → Bool
  | [], [] => false
  | [], _ :: _ => true
  | _ :: _, [] => false
  | x :: xs, y :: ys =>
      if x < y then true
      else if y < x then false
      else numericLt xs ys

/-- Claim C1: `needs_refresh` is true iff `now + threshold` is at least the
token's `expires_at`, the boundary case of equality returning true, and the
refresh threshold of a session constructed without an explicit value is the
default of 120 seconds. -/
theorem needs_refresh_iff_and_default (env : AuthEnv) (c : Credentials)
    (t : Token) (threshold now now0 : Nat) (hb : now0 + threshold = t.expires_at) :
    (needs_refresh t threshold now = true ↔ t.expires_at ≤ now + threshold)
    ∧ needs_refresh t threshold now0 = true
    ∧ (sessionFromCredentials env c now).refresh_before_expiry = 120 := by
  refine ⟨by simp [needs_refresh], ?_, rfl⟩
  simp [needs_refresh, hb]

/-- Witness for C1 at a concrete token, threshold and clock value. -/
theorem needs_refresh_iff_and_default_witness :
    (880 + 120 = (1000 : Nat))
    ∧ ((needs_refresh ⟨"t", "Bearer", 3600, 1000⟩ 120 500 = true ↔
          (1000 : Nat) ≤ 500 + 120)
        ∧ needs_refresh ⟨"t", "Bearer", 3600, 1000⟩ 120 880 = true
        ∧ (sessionFromCredentials ⟨fun _ _ => "a", fun _ _ => 3600⟩
            ⟨"id", "secret"⟩ 500).refresh_before_expiry = 120) :=
  ⟨by decide,
    needs_refresh_iff_and_default ⟨fun _ _ => "a", fun _ _ => 3600⟩
      ⟨"id", "secret"⟩ ⟨"t", "Bearer", 3600, 1000⟩ 120 500 880 (by decide)⟩

/-- Claim C3: a session built via `from_token` is never refreshed: both the
first and the second consecutive `get_token` calls return the held token
itself, leave the session unchanged, and perform no authentication call,
for every clock value (in particular past `expires_at`). -/
theorem from_token_session_never_refreshed (env : AuthEnv) (t : Token)
    (now1 now2 : Nat) :
    Session.get_token env now1 (Session.from_token t)
      = (t, Session.from_token t, false)
    ∧ Session.get_token env now2
        (Session.get_token env now1 (Session.from_token t)).2.1
      = (t, Session.from_token t, false) := by
  constructor <;> rfl

/-- Running a sequence of single-flight events decomposes over append. -/
theorem sfRun_append (result : Session) (as bs : List SFEvent) : ∀ st : SFState,
    sfRun result st (as ++ bs)
    = match sfRun result st as with
      | some st1 => sfRun result st1 bs
      | none => none := by
  induction as with
  | nil => intro st; simp [sfRun]
  | cons e es ih =>
      intro st
      simp only [List.cons_append, sfRun]
      cases sfStep result st e with
      | none => rfl
      | some st1 => exact ih st1

/-- While an authentication is in flight, further arriving callers only
join the waiter count: no additional authentication call is made. -/
theorem sfRun_arrivals (result : Session) (k : Nat) :
    ∀ (w a : Nat) (d : List Session),
    sfRun result ⟨none, some w, a, d⟩ (List.replicate k SFEvent.arrive)
    = some ⟨none, some (w + k), a, d⟩ := by
  induction k with
  | zero => intro w a d; simp [sfRun]
  | succ n ih =>
      intro w a d
      rw [List.replicate_succ]
      have h0 : sfStep result ⟨none, some w, a, d⟩ SFEvent.arrive
          = some ⟨none, some (w + 1), a, d⟩ := rfl
      simp only [sfRun, h0]
      rw [ih (w + 1) a d]
      have : w + 1 + n = w + (n + 1) := by omega
      rw [this]

/-- Claim C4: when `k` callers for the same credential identity all arrive
before the first authentication completes, running the whole sequence from
the initial state makes exactly one authentication call and delivers the
single resulting session to every one of the `k` callers. -/
theorem single_flight_per_identity (result : Session) (k : Nat) (hk : 1 ≤ k) :
    sfRun result sfInit (List.replicate k SFEvent.arrive ++ [SFEvent.complete])
    = some { cached := some result, inflightWaiters := none, authCalls := 1,
             delivered := List.replicate k result } := by
  obtain ⟨n, rfl⟩ : ∃ n, k = n + 1 := ⟨k - 1, by omega⟩
  rw [sfRun_append]
  have h1 : sfRun result sfInit (List.replicate (n + 1) SFEvent.arrive)
      = some ⟨none, some (1 + n), 1, []⟩ := by
    rw [List.replicate_succ]
    have h0 : sfStep result sfInit SFEvent.arrive = some ⟨none, some 1, 1, []⟩ := rfl
    simp only [sfRun, h0]
    exact sfRun_arrivals result n 1 1 []
  rw [h1]
  have h2 : sfStep result ⟨none, some (1 + n), 1, []⟩ SFEvent.complete
      = some ⟨some result, none, 1, List.replicate (1 + n) result ++ []⟩ := rfl
  simp only [sfRun, h2]
  rw [List.append_nil, Nat.add_comm 1 n]

/-- Witness for C4 with three concurrent callers and a concrete session. -/
theorem single_flight_per_identity_witness :
    (1 ≤ 3)
    ∧ sfRun sfWitnessSession sfInit
        (List.replicate 3 SFEvent.arrive ++ [SFEvent.complete])
      = some { cached := some sfWitnessSession, inflightWaiters := none,
               authCalls := 1, delivered := List.replicate 3 sfWitnessSession } :=
  ⟨by decide, single_flight_per_identity sfWitnessSession 3 (by decide)⟩

/-- Claim C2: deserializing the serialized form of a token reproduces the
token field-for-field, where the serialized form is the flat record holding
`access_token`, `token_type`, `expires_in` and `expires_at`. -/
theorem deserialize_serialize_roundtrip (t : Token) :
    deserializeToken (serializeToken t) = some t := by
  simp [serializeToken, deserializeToken, lookupStringField, lookupNumberField,
    lookupField]

/-- Claim C5: `cache_session` installs the session under its own credential
identity, or under the universal identity when requested, returns whether
an existing entry was replaced, and a subsequent `get_session` for that
identity returns the very session that was cached, with no authentication
call. -/
theorem cache_session_installs (env : AuthEnv) (now : Nat) (s : Session)
    (u : Bool) (c : SessionCache) :
    (cache_session s u c).1 = (lookupSession (cacheKey s u) c).isSome
    ∧ lookupSession (cacheKey s u) (cache_session s u c).2 = some s
    ∧ get_session env now (cacheKey s u) (cache_session s u c).2
        = (some s, (cache_session s u c).2, 0) := by
  refine ⟨rfl, ?_, ?_⟩ <;>
    simp [cache_session, lookupSession, get_session]

/-- Claim C6: after `clear()` the cache holds no sessions (every lookup
misses), and the next `get_session` call for a credential identity performs
exactly one fresh authentication and returns the newly authenticated
session. -/
theorem clear_cache_then_fresh_auth (env : AuthEnv) (now : Nat)
    (cid csec : String) (ident : CredentialIdentity) (c : SessionCache) :
    SessionCache.clear c = []
    ∧ lookupSession ident (SessionCache.clear c) = none
    ∧ get_session env now (CredentialIdentity.creds cid csec)
        (SessionCache.clear c)
      = (some (sessionFromCredentials env ⟨cid, csec⟩ now),
         [(CredentialIdentity.creds cid csec,
           sessionFromCredentials env ⟨cid, csec⟩ now)], 1) :=
  ⟨rfl, rfl, rfl⟩

/-- The session returned by `get_token` holds exactly the returned token in
both the refreshing and the non-refreshing branch. -/
theorem get_token_session_holds_result (env : AuthEnv) (now : Nat) (s : Session) :
    ((Session.get_token env now s).2.1).token = (Session.get_token env now s).1 := by
  unfold Session.get_token
  split <;> rfl

/-- Claim C7 (counterexample): with a refreshable session whose threshold is
120 and an auth endpoint issuing 60-second tokens, a successful `get_token`
at time 1000 performs a refresh yet leaves the session holding a token with
`now + threshold >= expires_at`, so the claimed invariant fails as stated. -/
theorem refreshable_invariant_counterexample :
    expiredRefreshableSession.is_refreshable = true
    ∧ (Session.get_token shortLivedEnv 1000 expiredRefreshableSession).2.2 = true
    ∧ ¬ (1000 + expiredRefreshableSession.refresh_before_expiry
          < ((Session.get_token shortLivedEnv 1000
                expiredRefreshableSession).2.1).token.expires_at) := by
  decide

/-- Claim C7 (amended): after a successful `get_token` on a refreshable
session with credentials and threshold `r`, the session holds a token with
`now + r < expires_at`, provided the auth endpoint issues tokens living
strictly longer than `r`; and a non-refreshable session built via
`from_token` returns its (possibly expired) token unchanged without
error. -/
theorem refreshable_get_token_invariant (env : AuthEnv) (now : Nat)
    (s : Session) (c : Credentials) (t0 : Token) (hc : s.creds = some c)
    (hr : s.is_refreshable = true)
    (hfresh : s.refresh_before_expiry < env.expiresInFor c now) :
    now + s.refresh_before_expiry
      < ((Session.get_token env now s).2.1).token.expires_at
    ∧ Session.get_token env now (Session.from_token t0)
        = (t0, Session.from_token t0, false) := by
  refine ⟨?_, rfl⟩
  unfold Session.get_token
  rw [hc, hr]
  cases hN : needs_refresh s.token s.refresh_before_expiry now with
  | true =>
      simp only [Bool.true_and, authenticate]
      omega
  | false =>
      simp only [Bool.true_and]
      simp only [needs_refresh, decide_eq_false_iff_not] at hN
      omega

/-- Witness for the amended C7 with a one-hour token endpoint and an
explicit expired token handed to `from_token`. -/
theorem refreshable_get_token_invariant_witness :
    (expiredRefreshableSession.creds = some ⟨"id", "secret"⟩
      ∧ expiredRefreshableSession.is_refreshable = true
      ∧ expiredRefreshableSession.refresh_before_expiry
          < longLivedEnv.expiresInFor ⟨"id", "secret"⟩ 1000)
    ∧ (1000 + expiredRefreshableSession.refresh_before_expiry
        < ((Session.get_token longLivedEnv 1000
              expiredRefreshableSession).2.1).token.expires_at
       ∧ Session.get_token longLivedEnv 1000
           (Session.from_token ⟨"x", "Bearer", 0, 0⟩)
         = (⟨"x", "Bearer", 0, 0⟩,
            Session.from_token ⟨"x", "Bearer", 0, 0⟩, false)) :=
  ⟨⟨rfl, rfl, by decide⟩,
    refreshable_get_token_invariant longLivedEnv 1000 expiredRefreshableSession
      ⟨"id", "secret"⟩ ⟨"x", "Bearer", 0, 0⟩ rfl rfl (by decide)⟩

/-- Claim C9: the Ray actor's and the Dask actor's `get_valid_session` are
the same function; each returns a non-refreshable session built from the
wrapped session's current (refreshed-if-needed) token, so the returned
session carries the same `access_token` as the wrapped session after the
call. -/
theorem ray_dask_get_valid_session_equiv :
    RaySessionActor.get_valid_session = DaskSessionActor.get_valid_session
    ∧ ∀ (env : AuthEnv) (now : Nat) (self : Session),
        (RaySessionActor.get_valid_session env now self).1
          = Session.from_token (Session.get_token env now self).1
        ∧ (RaySessionActor.get_valid_session env now self).1.token.access_token
          = ((RaySessionActor.get_valid_session env now self).2).token.access_token
        ∧ (RaySessionActor.get_valid_session env now self).1.is_refreshable = false := by
  refine ⟨rfl, fun env now self => ⟨rfl, ?_, rfl⟩⟩
  show (Session.from_token (Session.get_token env now self).1).token.access_token
      = ((Session.get_token env now self).2.1).token.access_token
  rw [get_token_session_holds_result]
  rfl

/-- Every channel step starts from a running channel. -/
theorem channelStep_requires_running (env : AuthEnv) (st st1 : ChannelState)
    (e : ChannelEvent) (h : ChannelStep env st e st1) : st.running = true := by
  cases h with
  | publish _ h => exact h
  | stop h => exact h

/-- A stopped channel admits no further events: any run from it is empty
and leaves the state untouched. -/
theorem channelRun_stopped (env : AuthEnv) (st st2 : ChannelState)
    (es : List ChannelEvent) (h : ChannelRun env st es st2)
    (hr : st.running = false) : es = [] ∧ st2 = st := by
  cases h with
  | nil => exact ⟨rfl, rfl⟩
  | cons h1 h2 =>
      have := channelStep_requires_running env _ _ _ h1
      rw [hr] at this
      exact absurd this (by simp)

/-- A channel run decomposes over list append. -/
theorem channelRun_append (env : AuthEnv) (as : List ChannelEvent) :
    ∀ (bs : List ChannelEvent) (st st2 : ChannelState),
    ChannelRun env st (as ++ bs) st2 →
    ∃ mid : ChannelState, ChannelRun env st as mid ∧ ChannelRun env mid bs st2 := by
  induction as with
  | nil => exact fun bs st st2 h => ⟨st, ChannelRun.nil st, h⟩
  | cons e es ih =>
      intro bs st st2 h
      rw [List.cons_append] at h
      cases h with
      | cons h1 h2 =>
          obtain ⟨mid, hm1, hm2⟩ := ih bs _ st2 h2
          exact ⟨mid, ChannelRun.cons h1 hm1, hm2⟩

/-- Claim C8: when a run of the channel contains a stop event (the wrapped
scope exiting), no events at all follow the stop (in particular no further
publish, and so no further authentication call), and the final state is the
state reached before the stop with only the running flag cleared: the
last-published token is left in place in the shared medium. -/
theorem channel_stop_halts (env : AuthEnv) (st st2 : ChannelState)
    (es1 es2 : List ChannelEvent)
    (h : ChannelRun env st (es1 ++ ChannelEvent.stop :: es2) st2) :
    es2 = []
    ∧ ∃ stMid : ChannelState, ChannelRun env st es1 stMid
        ∧ st2 = { stMid with running := false }
        ∧ st2.medium = stMid.medium := by
  obtain ⟨mid, hAs, hBs⟩ := channelRun_append env es1 (ChannelEvent.stop :: es2) st st2 h
  cases hBs with
  | cons h1 h2 =>
      cases h1 with
      | stop hrun =>
          obtain ⟨hes, hst⟩ := channelRun_stopped env _ _ _ h2 rfl
          refine ⟨hes, mid, hAs, ?_, ?_⟩
          · rw [hst]
          · rw [hst]

/-- Witness for C8: a concrete channel that publishes once at time 0 and
then receives the stop request. -/
theorem channel_stop_halts_witness :
    ([] : List ChannelEvent) = []
    ∧ ∃ stMid : ChannelState,
        ChannelRun longLivedEnv chanStartState [ChannelEvent.publish 0] stMid
        ∧ chanStoppedState = { stMid with running := false }
        ∧ chanStoppedState.medium = stMid.medium :=
  channel_stop_halts longLivedEnv chanStartState chanStoppedState
    [ChannelEvent.publish 0] []
    (ChannelRun.cons (ChannelStep.publish chanStartState 0 rfl)
      (ChannelRun.cons
        (ChannelStep.stop
          { chanStartState with
            session := (Session.get_token longLivedEnv 0 chanStartState.session).2.1
            medium := some (serializeToken
              (Session.get_token longLivedEnv 0 chanStartState.session).1) } rfl)
        (ChannelRun.nil chanStoppedState)))

/-- The boolean lexicographic comparison on Nat sequences agrees with the
mathematical lexicographic order `List.Lex`: `a <= b` holds iff `b` is not
lexicographically below `a`. -/
theorem lexLeSpec_iff_not_lex (a : List Nat) : ∀ b : List Nat,
    lexLeSpec a b = true ↔ ¬ List.Lex (fun m n : Nat => m < n) b a := by
  induction a with
  | nil =>
      intro b
      simp [lexLeSpec]
  | cons x xs ih =>
      intro b
      cases b with
      | nil =>
          simp only [lexLeSpec, Bool.false_eq_true, false_iff, not_not]
          exact List.Lex.nil
      | cons y ys =>
          by_cases h1 : x < y
          · simp only [lexLeSpec, h1, if_true, true_iff]
            intro hlex
            cases hlex with
            | cons _ => omega
            | rel h => omega
          · by_cases h2 : y < x
            · simp only [lexLeSpec, h1, h2, if_true, if_false,
                Bool.false_eq_true, false_iff, not_not]
              exact List.Lex.rel h2
            · have hxy : y = x := by omega
              subst hxy
              simp only [lexLeSpec, h1, h2, if_false]
              rw [List.Lex.cons_iff]
              exact ih ys

/-- The Python string comparison of the guard, mapped to code points, is
exactly the boolean lexicographic comparison. -/
theorem pyStrLe_eq_lexLeSpec (a : List Char) : ∀ b : List Char,
    pyStrLe a b = lexLeSpec (a.map Char.toNat) (b.map Char.toNat) := by
  induction a with
  | nil => intro b; cases b <;> rfl
  | cons x xs ih =>
      intro b
      cases b with
      | nil => rfl
      | cons y ys =>
          simp only [pyStrLe, lexLeSpec, List.map_cons, ih ys]

/-- Claim C10: the tutorial's minimum-version guard accepts a version
string `v` exactly when `v` is lexicographically (by code point) at least
"3.6.0", and in particular it rejects "3.10.0" (raising AssertionError)
even though the numeric reading of "3.10.0" is strictly newer than
3.6.0. -/
theorem version_guard_lexicographic (v : String) :
    (versionGuardPasses v = true
      ↔ ¬ List.Lex (fun m n : Nat => m < n) (v.data.map Char.toNat)
          (minimalVersion.data.map Char.toNat))
    ∧ versionGuardPasses "3.10.0" = false
    ∧ numericLt (numericVersion minimalVersion) (numericVersion "3.10.0") = true := by
  refine ⟨?_, by decide, by decide⟩
  unfold versionGuardPasses
  rw [pyStrLe_eq_lexLeSpec]
  exact lexLeSpec_iff_not_lex (minimalVersion.data.map Char.toNat) (v.data.map Char.toNat)
